import Mathlib

/-
  Verification of the os-sandbox sandbox lifecycle CLI (`os_sandbox/cmd/sandbox.py`)
  against its natural-language specification.

  The repository ships the command layer (`src/os_sandbox/cmd/sandbox.py`); the
  orchestration core (`os_sandbox/sandbox.py`, the state store, the template store
  and the provisioning gateway) is not part of `src/`, so those collaborators are
  modelled from the specification (each such definition carries a doc comment
  starting `Modelled from the spec:`).  The command layer itself is embedded
  directly from the Python source.
-/

namespace OsSandbox

/-- Resource status enumeration for Networks and Nodes (spec section 3). -/
inductive RStatus
  | pending
  | active
  | stopped
  | error
  | deleted
deriving DecidableEq, Repr

/-- Sandbox status enumeration (spec section 3). -/
inductive SbStatus
  | creating
  | active
  | stopping
  | stopped
  | starting
  | deleting
  | error
deriving DecidableEq, Repr

/-- Render a sandbox status string, as the Python attribute sb.status yields. -/
def SbStatus.str : SbStatus → String
  | .creating => "creating"
  | .active => "active"
  | .stopping => "stopping"
  | .stopped => "stopped"
  | .starting => "starting"
  | .deleting => "deleting"
  | .error => "error"

/-- Network instance: name, CIDR, status (spec section 3). -/
structure Network where
  name : String
  cidr : String
  status : RStatus
deriving DecidableEq, Repr

/-- Node instance: name, services, status, attached network names (spec section 3). -/
structure Node where
  name : String
  services : List String
  status : RStatus
  networks : List String
deriving DecidableEq, Repr

/-- Persisted Sandbox record: name, status, template reference, resources
(spec section 3). -/
structure SbRecord where
  name : String
  status : SbStatus
  tpl : String
  networks : List Network
  nodes : List Node
deriving DecidableEq, Repr

/-- One State Store entry.  `rec = none` stands for a record that is present on
disk but malformed / partially written, so that parsing it (and hence normal
construction of a Sandbox object) fails. -/
structure Entry where
  name : String
  data : Option SbRecord
deriving DecidableEq, Repr

/-- The State Store contents: one entry per persisted sandbox record. -/
abbrev Store := List Entry

/-- Template network definition (spec section 3). -/
structure NetDef where
  name : String
  cidr : String
deriving DecidableEq, Repr

/-- Template node definition (spec section 3). -/
structure NodeDef where
  name : String
  services : List String
  networks : List String
deriving DecidableEq, Repr

/-- Immutable topology template (spec section 3). -/
structure Template where
  name : String
  networks : List NetDef
  nodes : List NodeDef
deriving DecidableEq, Repr

/-- The Template Store contents. -/
abbrev TemplateStore := List Template

/-- The error taxonomy (spec section 7), extended with the two error shapes the
command layer itself produces: the RuntimeError raised on a missing sandbox and
the Python UnboundLocalError. -/
inductive OsError
  | templateNotFound (name : String)
  | templateInvalid (name : String)
  | sandboxNotFound (name : String)
  | alreadyExists (name : String)
  | provisioningError (kind : String) (resource : String)
  | residualResourceError (name : String)
  | corruptRecord (name : String)
  | runtimeError (msg : String)
  | unboundLocalError (var : String)
deriving DecidableEq, Repr

/-- Provisioning Gateway (spec section 4.3), as a deterministic oracle: for each
boundary call, whether it succeeds on the named resource.  A fault-free gateway
maps every name to `true` everywhere. -/
structure Gateway where
  provisionNetworkOk : String → Bool
  teardownNetworkOk : String → Bool
  provisionNodeOk : String → Bool
  teardownNodeOk : String → Bool
  startNodeOk : String → Bool
  stopNodeOk : String → Bool

namespace StateStore

/-- Modelled from the spec: State Store lookup of the persisted entry for a
name (section 4.2); the store keys records by sandbox name. -/
def lookupEntry (st : Store) (n : String) : Option Entry :=
  List.find? (fun e => e.name == n) st

/-- Modelled from the spec: `exists(name)` — true iff a persisted record for
`name` is present, regardless of status (section 4.2). -/
def memRec (st : Store) (n : String) : Bool :=
  (lookupEntry st n).isSome

/-- Modelled from the spec: `remove(name)` — deletes the persisted record;
idempotent (section 4.2). -/
def remove (st : Store) (n : String) : Store :=
  List.filter (fun e => !(e.name == n)) st

/-- Modelled from the spec: `save(sandbox)` — atomically overwrites the
persisted record under the name of the sandbox (section 4.2). -/
def save (st : Store) (r : SbRecord) : Store :=
  Entry.mk r.name (some r) :: remove st r.name

/-- Modelled from the spec: `load(name)` as the well-formed record for `name`,
when one is present and parseable. -/
def loadRec (st : Store) (n : String) : Option SbRecord :=
  match lookupEntry st n with
  | some e => e.data
  | none => none

end StateStore

/-- Modelled from the spec: Template Store `resolve` (section 4.1) — fails with
TemplateNotFound if no template of that name is registered, with
TemplateInvalid if a node references an undefined network. -/
def resolve (ts : TemplateStore) (tplName : String) : Except OsError Template :=
  match List.find? (fun t => t.name == tplName) ts with
  | none => .error (.templateNotFound tplName)
  | some t =>
    if t.nodes.all (fun nd => nd.networks.all (fun nm => t.networks.any (fun d => d.name == nm))) then
      .ok t
    else
      .error (.templateInvalid tplName)

/-- Modelled from the spec: provision Networks in template order — each success
transitions that Network to active, each failure to error and aborts remaining
network provisioning (section 4.4, create). -/
def provisionNets (gw : Gateway) : List Network → List Network
  | [] => []
  | n :: rest =>
    if gw.provisionNetworkOk n.name then
      { n with status := .active } :: provisionNets gw rest
    else
      { n with status := .error } :: rest

/-- Modelled from the spec: provision Nodes in template order — a failure marks
that Node error and aborts remaining node provisioning, without rollback
(section 4.4, create). -/
def provisionNodes (gw : Gateway) : List Node → List Node
  | [] => []
  | n :: rest =>
    if gw.provisionNodeOk n.name then
      { n with status := .active } :: provisionNodes gw rest
    else
      { n with status := .error } :: rest

/-- Modelled from the spec: start each Node in template order, aggregating as
in create — a failure marks that Node error and aborts the remaining starts
(section 4.4, start). -/
def startNodes (gw : Gateway) : List Node → List Node
  | [] => []
  | n :: rest =>
    if gw.startNodeOk n.name then
      { n with status := .active } :: startNodes gw rest
    else
      { n with status := .error } :: rest

/-- Modelled from the spec: stop Nodes best-effort — individual stop failures
are recorded per-Node as error but do not abort stopping the remaining Nodes
(section 4.4, stop).  The source order is reverse template order; since every
Node is processed regardless of failures, the per-Node result is a map. -/
def stopNodes (gw : Gateway) (nodes : List Node) : List Node :=
  (nodes.reverse.map (fun n =>
    if gw.stopNodeOk n.name then { n with status := .stopped }
    else { n with status := .error })).reverse

/-- Modelled from the spec: strict (non-force) teardown of a resource list in
the given order; stops at the first failure, marking successes deleted and the
failing resource error.  Returns the updated list and whether all succeeded
(section 4.4, delete, non-force mode). -/
def teardownNodesStrict (gw : Gateway) : List Node → List Node × Bool
  | [] => ([], true)
  | n :: rest =>
    if gw.teardownNodeOk n.name then
      let p := teardownNodesStrict gw rest
      ({ n with status := .deleted } :: p.1, p.2)
    else
      ({ n with status := .error } :: rest, false)

/-- Modelled from the spec: strict (non-force) teardown of Networks, as for
Nodes (section 4.4, delete, non-force mode). -/
def teardownNetsStrict (gw : Gateway) : List Network → List Network × Bool
  | [] => ([], true)
  | n :: rest =>
    if gw.teardownNetworkOk n.name then
      let p := teardownNetsStrict gw rest
      ({ n with status := .deleted } :: p.1, p.2)
    else
      ({ n with status := .error } :: rest, false)

/-- Result of an orchestrator operation: the new State Store contents and the
error surfaced to the caller, if any. -/
structure OpResult where
  store : Store
  err : Option OsError
deriving Repr

namespace Sandbox

/-- Modelled from the spec: Orchestrator `create(name, template)` (section 4.4).
Fails with AlreadyExists if a record exists; resolves the template; persists a
creating record with all resources pending; provisions Networks in template
order (abort on failure), then — only if all Networks are active — Nodes in
template order; final status active iff every resource is active, else error;
persists the final state.  A provisioning failure is persisted, not fatal
(section 7). -/
def create (ts : TemplateStore) (gw : Gateway) (st : Store) (name tplName : String) : OpResult :=
  if StateStore.memRec st name then
    ⟨st, some (.alreadyExists name)⟩
  else
    match resolve ts tplName with
    | .error e => ⟨st, some e⟩
    | .ok tpl =>
      let nets0 := tpl.networks.map (fun d => Network.mk d.name d.cidr .pending)
      let nodes0 := tpl.nodes.map (fun d => Node.mk d.name d.services .pending d.networks)
      let st1 := StateStore.save st (SbRecord.mk name .creating tplName nets0 nodes0)
      let nets1 := provisionNets gw nets0
      if nets1.all (fun n => n.status == .active) then
        let nodes1 := provisionNodes gw nodes0
        let status := if nodes1.all (fun n => n.status == .active) then SbStatus.active else SbStatus.error
        ⟨StateStore.save st1 (SbRecord.mk name status tplName nets1 nodes1), none⟩
      else
        ⟨StateStore.save st1 (SbRecord.mk name .error tplName nets1 nodes0), none⟩

/-- Modelled from the spec: Orchestrator `start(name)` (section 4.4).  Fails
with SandboxNotFound if absent; no-op success if already active; otherwise
starts each Node in template order, aggregates as in create, persists. -/
def start (gw : Gateway) (st : Store) (name : String) : OpResult :=
  match StateStore.lookupEntry st name with
  | none => ⟨st, some (.sandboxNotFound name)⟩
  | some e =>
    match e.data with
    | none => ⟨st, some (.corruptRecord name)⟩
    | some r =>
      if r.status = .active then
        ⟨st, none⟩
      else
        let nodes1 := startNodes gw r.nodes
        let status := if nodes1.all (fun n => n.status == .active) then SbStatus.active else SbStatus.error
        ⟨StateStore.save st { r with status := status, nodes := nodes1 }, none⟩

/-- Modelled from the spec: Orchestrator `stop(name)` (section 4.4).  Fails
with SandboxNotFound if absent; stops each Node in reverse template order,
best-effort (per-Node failures recorded, batch not aborted), then marks the
Sandbox stopped and persists. -/
def stop (gw : Gateway) (st : Store) (name : String) : OpResult :=
  match StateStore.lookupEntry st name with
  | none => ⟨st, some (.sandboxNotFound name)⟩
  | some e =>
    match e.data with
    | none => ⟨st, some (.corruptRecord name)⟩
    | some r =>
      let nodes1 := stopNodes gw r.nodes
      ⟨StateStore.save st { r with status := .stopped, nodes := nodes1 }, none⟩

/-- Modelled from the spec: Orchestrator `delete(name, force)` (section 4.4).
Fails with SandboxNotFound if absent (unless force).  Tears down Nodes first in
reverse creation order, then Networks.  Non-force: any teardown failure is
surfaced as ResidualResourceError and the record is retained with status error.
Force: teardown failures are ignored per-resource and the record is removed
unconditionally. -/
def delete (gw : Gateway) (st : Store) (name : String) (force : Bool) : OpResult :=
  match StateStore.lookupEntry st name with
  | none =>
    if force then ⟨StateStore.remove st name, none⟩
    else ⟨st, some (.sandboxNotFound name)⟩
  | some e =>
    match e.data with
    | none =>
      if force then ⟨StateStore.remove st name, none⟩
      else ⟨st, some (.corruptRecord name)⟩
    | some r =>
      if force then
        ⟨StateStore.remove st name, none⟩
      else
        let pn := teardownNodesStrict gw r.nodes.reverse
        let nodes1 := pn.1.reverse
        if pn.2 then
          let pw := teardownNetsStrict gw r.networks.reverse
          let nets1 := pw.1.reverse
          if pw.2 then
            ⟨StateStore.remove st name, none⟩
          else
            ⟨StateStore.save st { r with status := .error, networks := nets1, nodes := nodes1 }, some (.residualResourceError name)⟩
        else
          ⟨StateStore.save st { r with status := .error, nodes := nodes1 }, some (.residualResourceError name)⟩

/-- Modelled from the spec: static `force_delete(name)` (section 4.4) — removes
the State Store record directly without attempting resource teardown; total and
idempotent, it raises nothing. -/
def force_delete (st : Store) (name : String) : Store :=
  StateStore.remove st name

/-- Modelled from the spec: constructing a Sandbox object, as
`sandbox.Sandbox(parsed_args, sb_name)` does — it reads the persisted record
when one is present and resolves its template; a malformed (unparseable)
record or a template error makes construction itself raise (sections 4.4
force_delete and 9).  For an absent name, construction succeeds with no loaded
record (the command layer then consults `exists()`). -/
def construct (ts : TemplateStore) (st : Store) (name : String) : Except OsError (Option SbRecord) :=
  match StateStore.lookupEntry st name with
  | none => .ok none
  | some e =>
    match e.data with
    | none => .error (.corruptRecord name)
    | some r =>
      match resolve ts r.tpl with
      | .error err => .error err
      | .ok _ => .ok (some r)

end Sandbox

/-- The section-4 operation a command invokes, recorded for the 1:1 mapping of
the command layer onto orchestrator / registry operations (spec section 6). -/
inductive Event
  | opList
  | opShow (name : String)
  | opCreate (name : String)
  | opDelete (name : String)
  | opForceDelete (name : String)
  | opStart (name : String)
  | opStop (name : String)
deriving DecidableEq, Repr

/-- A row of the list command: full name, status, template name. -/
abbrev Row := String × String × String

/-- Outcome of one command invocation: resulting State Store contents, the
orchestrator / registry operations invoked, the escaping error if any, and the
rows produced (list command only). -/
structure CmdResult where
  store : Store
  events : List Event
  err : Option OsError
  rows : List Row
deriving Repr

/-- Modelled from the spec: the process exit status the command layer surfaces —
zero on success, non-zero on any unhandled failure (section 6; the cliff
framework that maps escaped exceptions to the exit status is out of scope of
the shipped source). -/
def exitCode (r : CmdResult) : Nat :=
  match r.err with
  | none => 0
  | some _ => 1

/-- The RuntimeError message the command layer raises for a missing sandbox:
"A sandbox with name {0} does not exist." formatted with the name. -/
def notFoundMsg (n : String) : String :=
  "A sandbox with name " ++ n ++ " does not exist."

/-- Arguments parsed by the command layer (name; --force for delete; --template
for create). -/
structure ParsedArgs where
  name : String
  force : Bool
  template : String
deriving Repr

/-- Ordered insertion by sandbox name, for the name-ordered enumeration. -/
def insertByName (r : SbRecord) : List SbRecord → List SbRecord
  | [] => [r]
  | x :: xs => if r.name ≤ x.name then r :: x :: xs else x :: insertByName r xs

/-- Sort records by sandbox name (insertion sort). -/
def sortByName : List SbRecord → List SbRecord
  | [] => []
  | x :: xs => insertByName x (sortByName xs)

/-- Read every persisted record, constructing each Sandbox object in turn; a
malformed record or a template error makes the enumeration raise, as iterating
`sandbox.Sandboxes(parsed_args)` would. -/
def readAll (ts : TemplateStore) : Store → Except OsError (List SbRecord)
  | [] => .ok []
  | e :: rest =>
    match e.data with
    | none => .error (.corruptRecord e.name)
    | some r =>
      match resolve ts r.tpl with
      | .error err => .error err
      | .ok _ =>
        match readAll ts rest with
        | .error err => .error err
        | .ok rs => .ok (r :: rs)

/-- Modelled from the spec: `sandbox.Sandboxes(parsed_args)` — the Registry
enumeration over the State Store, ordered by sandbox name (sections 4.2 and
4.5). -/
def enumerate (ts : TemplateStore) (st : Store) : Except OsError (List SbRecord) :=
  match readAll ts st with
  | .error e => .error e
  | .ok rs => .ok (sortByName rs)

/-- Embeds SandboxList.take_action: builds one row per sandbox from the
Registry enumeration — (sb.full_name, sb.status, sb.template.name); full_name
and ordering come from the enumeration (the Sandboxes class is not in src/). -/
def SandboxList.take_action (ts : TemplateStore) (st : Store) : CmdResult :=
  match enumerate ts st with
  | .error e => ⟨st, [], some e, []⟩
  | .ok recs => ⟨st, [.opList], none, recs.map (fun r => (r.name, r.status.str, r.tpl))⟩

/-- Embeds SandboxShow.take_action: construct the Sandbox object, raise
RuntimeError if it does not exist, then print its fields. -/
def SandboxShow.take_action (ts : TemplateStore) (st : Store) (args : ParsedArgs) : CmdResult :=
  match Sandbox.construct ts st args.name with
  | .error e => ⟨st, [], some e, []⟩
  | .ok _ =>
    if StateStore.memRec st args.name then
      ⟨st, [.opShow args.name], none, []⟩
    else
      ⟨st, [], some (.runtimeError (notFoundMsg args.name)), []⟩

/-- Embeds SandboxCreate.take_action: construct the Sandbox object (an
exception propagates), then invoke sb.create(). -/
def SandboxCreate.take_action (ts : TemplateStore) (gw : Gateway) (st : Store) (args : ParsedArgs) : CmdResult :=
  match Sandbox.construct ts st args.name with
  | .error e => ⟨st, [], some e, []⟩
  | .ok _ =>
    let res := Sandbox.create ts gw st args.name args.template
    ⟨res.store, [.opCreate args.name], res.err, []⟩

/-- Embeds SandboxDelete.take_action.  `try: sb = Sandbox(...) except:` — when
construction raises and --force was given, `Sandbox.force_delete(sb_name)` runs
and control falls through to `if not sb.exists()` with the local `sb` never
bound, so Python raises UnboundLocalError there (after the record was removed);
without --force the bare `raise` re-raises the construction error.  When
construction succeeds, a missing sandbox raises RuntimeError, and otherwise
sb.delete() runs — the Sandbox object was built from parsed_args, so the
operation carries the force flag (the command maps 1:1 onto the orchestrator
operation delete(name, force), spec section 6). -/
def SandboxDelete.take_action (ts : TemplateStore) (gw : Gateway) (st : Store) (args : ParsedArgs) : CmdResult :=
  match Sandbox.construct ts st args.name with
  | .error e =>
    if args.force then
      let st1 := Sandbox.force_delete st args.name
      ⟨st1, [.opForceDelete args.name], some (.unboundLocalError "sb"), []⟩
    else
      ⟨st, [], some e, []⟩
  | .ok _ =>
    if StateStore.memRec st args.name then
      let res := Sandbox.delete gw st args.name args.force
      ⟨res.store, [.opDelete args.name], res.err, []⟩
    else
      ⟨st, [], some (.runtimeError (notFoundMsg args.name)), []⟩

/-- Embeds SandboxStart.take_action: construct, raise RuntimeError if the
sandbox does not exist, then invoke sb.start(). -/
def SandboxStart.take_action (ts : TemplateStore) (gw : Gateway) (st : Store) (args : ParsedArgs) : CmdResult :=
  match Sandbox.construct ts st args.name with
  | .error e => ⟨st, [], some e, []⟩
  | .ok _ =>
    if StateStore.memRec st args.name then
      let res := Sandbox.start gw st args.name
      ⟨res.store, [.opStart args.name], res.err, []⟩
    else
      ⟨st, [], some (.runtimeError (notFoundMsg args.name)), []⟩

/-- Embeds SandboxStop.take_action: construct, raise RuntimeError if the
sandbox does not exist, then invoke sb.stop(). -/
def SandboxStop.take_action (ts : TemplateStore) (gw : Gateway) (st : Store) (args : ParsedArgs) : CmdResult :=
  match Sandbox.construct ts st args.name with
  | .error e => ⟨st, [], some e, []⟩
  | .ok _ =>
    if StateStore.memRec st args.name then
      let res := Sandbox.stop gw st args.name
      ⟨res.store, [.opStop args.name], res.err, []⟩
    else
      ⟨st, [], some (.runtimeError (notFoundMsg args.name)), []⟩


/- ## Basic State Store lemmas -/

namespace StateStore

lemma lookupEntry_cons (e : Entry) (st : Store) (n : String) :
    lookupEntry (e :: st) n = if e.name == n then some e else lookupEntry st n := by
  simp [lookupEntry, List.find?_cons]
  split <;> simp_all

lemma lookupEntry_remove_self (st : Store) (n : String) :
    lookupEntry (remove st n) n = none := by
  induction st with
  | nil => rfl
  | cons e rest ih =>
    rw [remove, List.filter_cons]
    by_cases h : e.name == n
    · simpa [h] using ih
    · simp only [h, Bool.not_false, if_pos]
      rw [lookupEntry_cons]
      simpa [h] using ih

lemma lookupEntry_remove_ne (st : Store) (n m : String) (h : m ≠ n) :
    lookupEntry (remove st n) m = lookupEntry st m := by
  induction st with
  | nil => rfl
  | cons e rest ih =>
    rw [remove, List.filter_cons]
    by_cases he : e.name == n
    · have he2 : e.name = n := by simpa [beq_iff_eq] using he
      have hem : (e.name == m) = false := by
        rw [beq_eq_false_iff_ne]
        exact fun hc => h (hc.symm.trans he2)
      simp only [he, Bool.not_true, if_neg Bool.false_ne_true]
      rw [lookupEntry_cons, if_neg (by simp [hem])]
      exact ih
    · simp only [he, Bool.not_false, if_pos]
      rw [lookupEntry_cons, lookupEntry_cons]
      by_cases hem : e.name == m
      · simp [hem]
      · simp only [hem, if_neg Bool.false_ne_true]
        exact ih

lemma memRec_remove_self (st : Store) (n : String) :
    memRec (remove st n) n = false := by
  simp [memRec, lookupEntry_remove_self]

lemma lookupEntry_save_self (st : Store) (r : SbRecord) :
    lookupEntry (save st r) r.name = some (Entry.mk r.name (some r)) := by
  rw [save, lookupEntry_cons]
  simp

lemma memRec_save_self (st : Store) (r : SbRecord) :
    memRec (save st r) r.name = true := by
  simp [memRec, lookupEntry_save_self]

lemma lookupEntry_of_memRec_false (st : Store) (n : String) (h : memRec st n = false) :
    lookupEntry st n = none := by
  unfold memRec at h
  cases hl : lookupEntry st n with
  | none => rfl
  | some e => rw [hl] at h; simp at h

end StateStore

/- ## Inversion of Sandbox construction -/

lemma construct_ok_some_inv {ts : TemplateStore} {st : Store} {name : String} {r : SbRecord}
    (hc : Sandbox.construct ts st name = .ok (some r)) :
    ∃ e, StateStore.lookupEntry st name = some e ∧ e.data = some r ∧
      ∃ t, resolve ts r.tpl = .ok t := by
  unfold Sandbox.construct at hc
  split at hc
  · exact absurd hc (by simp)
  next e h1 =>
    split at hc
    · exact absurd hc (by simp)
    next r0 h2 =>
      split at hc
      · exact absurd hc (by simp)
      next t h3 =>
        simp only [Except.ok.injEq, Option.some.injEq] at hc
        subst hc
        exact ⟨e, h1, h2, t, h3⟩

lemma construct_of_lookup_none {ts : TemplateStore} {st : Store} {name : String}
    (h : StateStore.lookupEntry st name = none) :
    Sandbox.construct ts st name = .ok none := by
  unfold Sandbox.construct
  rw [h]

/- ## Gateway fold lemmas -/

lemma provisionNets_all_ok (gw : Gateway) (l : List Network)
    (h : ∀ n ∈ l, gw.provisionNetworkOk n.name = true) :
    provisionNets gw l = l.map (fun n => { n with status := RStatus.active }) := by
  induction l with
  | nil => rfl
  | cons a rest ih =>
    rw [provisionNets, if_pos (h a (List.mem_cons_self a rest)), List.map_cons,
      ih (fun n hn => h n (List.mem_cons_of_mem a hn))]

lemma provisionNodes_all_ok (gw : Gateway) (l : List Node)
    (h : ∀ n ∈ l, gw.provisionNodeOk n.name = true) :
    provisionNodes gw l = l.map (fun n => { n with status := RStatus.active }) := by
  induction l with
  | nil => rfl
  | cons a rest ih =>
    rw [provisionNodes, if_pos (h a (List.mem_cons_self a rest)), List.map_cons,
      ih (fun n hn => h n (List.mem_cons_of_mem a hn))]

lemma stopNodes_eq_map (gw : Gateway) (l : List Node) :
    stopNodes gw l = l.map (fun n =>
      if gw.stopNodeOk n.name then { n with status := RStatus.stopped }
      else { n with status := RStatus.error }) := by
  rw [stopNodes, List.map_reverse, List.reverse_reverse]

lemma stopNodes_all_ok (gw : Gateway) (l : List Node)
    (h : ∀ n ∈ l, gw.stopNodeOk n.name = true) :
    stopNodes gw l = l.map (fun n => { n with status := RStatus.stopped }) := by
  rw [stopNodes_eq_map]
  exact List.map_congr_left (fun n hn => by rw [if_pos (h n hn)])

lemma teardownNodesStrict_all_ok (gw : Gateway) (l : List Node)
    (h : ∀ n ∈ l, gw.teardownNodeOk n.name = true) :
    teardownNodesStrict gw l = (l.map (fun n => { n with status := RStatus.deleted }), true) := by
  induction l with
  | nil => rfl
  | cons a rest ih =>
    rw [teardownNodesStrict]
    rw [if_pos (h a (List.mem_cons_self a rest)), ih (fun n hn => h n (List.mem_cons_of_mem a hn))]
    simp

lemma teardownNetsStrict_all_ok (gw : Gateway) (l : List Network)
    (h : ∀ n ∈ l, gw.teardownNetworkOk n.name = true) :
    teardownNetsStrict gw l = (l.map (fun n => { n with status := RStatus.deleted }), true) := by
  induction l with
  | nil => rfl
  | cons a rest ih =>
    rw [teardownNetsStrict]
    rw [if_pos (h a (List.mem_cons_self a rest)), ih (fun n hn => h n (List.mem_cons_of_mem a hn))]
    simp

lemma provisionNets_break (gw : Gateway) (pre : List Network) (x : Network) (suf : List Network)
    (hpre : ∀ n ∈ pre, gw.provisionNetworkOk n.name = true)
    (hx : gw.provisionNetworkOk x.name = false) :
    provisionNets gw (pre ++ x :: suf) =
      pre.map (fun n => { n with status := RStatus.active }) ++
        ({ x with status := RStatus.error } :: suf) := by
  induction pre with
  | nil => simp [provisionNets, hx]
  | cons a rest ih =>
    rw [List.cons_append, provisionNets, if_pos (hpre a (List.mem_cons_self a rest)),
      ih (fun n hn => hpre n (List.mem_cons_of_mem a hn)), List.map_cons, List.cons_append]

/- ## Insertion sort by name: permutation and sortedness -/

lemma insertByName_perm (r : SbRecord) (l : List SbRecord) :
    (insertByName r l).Perm (r :: l) := by
  induction l with
  | nil => exact List.Perm.refl _
  | cons x xs ih =>
    rw [insertByName]
    by_cases h : r.name ≤ x.name
    · rw [if_pos h]
    · rw [if_neg h]
      exact (ih.cons x).trans (List.Perm.swap r x xs)

lemma sortByName_perm (l : List SbRecord) : (sortByName l).Perm l := by
  induction l with
  | nil => exact List.Perm.refl _
  | cons x xs ih =>
    rw [sortByName]
    exact (insertByName_perm x (sortByName xs)).trans (ih.cons x)

lemma insertByName_sorted (r : SbRecord) (l : List SbRecord)
    (h : l.Pairwise (fun a b => a.name ≤ b.name)) :
    (insertByName r l).Pairwise (fun a b => a.name ≤ b.name) := by
  induction l with
  | nil => simp [insertByName]
  | cons x xs ih =>
    rw [List.pairwise_cons] at h
    obtain ⟨hx, hxs⟩ := h
    rw [insertByName]
    by_cases hr : r.name ≤ x.name
    · rw [if_pos hr]
      refine List.pairwise_cons.mpr ⟨?_, List.pairwise_cons.mpr ⟨hx, hxs⟩⟩
      intro b hb
      rcases List.mem_cons.mp hb with hbx | hbxs
      · exact hbx ▸ hr
      · exact le_trans hr (hx b hbxs)
    · rw [if_neg hr]
      refine List.pairwise_cons.mpr ⟨?_, ih hxs⟩
      intro b hb
      have hb2 : b ∈ r :: xs := (insertByName_perm r xs).mem_iff.mp hb
      rcases List.mem_cons.mp hb2 with hbr | hbxs
      · exact hbr ▸ le_of_not_le hr
      · exact hx b hbxs

lemma sortByName_sorted (l : List SbRecord) :
    (sortByName l).Pairwise (fun a b => a.name ≤ b.name) := by
  induction l with
  | nil => simp [sortByName]
  | cons x xs ih =>
    rw [sortByName]
    exact insertByName_sorted x (sortByName xs) ih


/- ## Concrete fixtures -/

/-- Template T1 of the spec scenarios: one network, one node running web. -/
def tplT1 : Template :=
  ⟨"T1", [⟨"net-a", "10.0.0.0/24"⟩], [⟨"node-1", ["web"], ["net-a"]⟩]⟩

/-- A two-network template, for the partial network-provisioning scenario. -/
def tplT2 : Template :=
  ⟨"T2", [⟨"net-a", "10.0.0.0/24"⟩, ⟨"net-b", "10.0.1.0/24"⟩], [⟨"node-1", ["web"], ["net-a"]⟩]⟩

/-- A template store holding T1 and T2. -/
def ts1 : TemplateStore := [tplT1, tplT2]

/-- A gateway on which every boundary call succeeds. -/
def gwAllOk : Gateway :=
  ⟨fun _ => true, fun _ => true, fun _ => true, fun _ => true, fun _ => true, fun _ => true⟩

/-- A gateway on which tearing down node-1 fails and everything else succeeds. -/
def gwNodeTeardownFail : Gateway :=
  { gwAllOk with teardownNodeOk := fun s => !(s == "node-1") }

/-- A gateway on which provisioning net-b fails and everything else succeeds. -/
def gwNetBFail : Gateway :=
  { gwAllOk with provisionNetworkOk := fun s => !(s == "net-b") }

/-- The error-state sandbox of the spec scenario: net-a active, node-1 error. -/
def recErr : SbRecord :=
  ⟨"sb1", .error, "T1", [⟨"net-a", "10.0.0.0/24", .active⟩],
    [⟨"node-1", ["web"], .error, ["net-a"]⟩]⟩

/-- A store holding the error-state sandbox sb1. -/
def stErr : Store := [⟨"sb1", some recErr⟩]

/-- A store holding a malformed (unparseable) record for sb1. -/
def stCorrupt : Store := [⟨"sb1", none⟩]

/- ## Claim theorems -/

/-- C1: for every sandbox whose persisted record loads (Sandbox construction
succeeds on a stored record) and is in status error, the delete command with
force=true terminates with no State Store record for that name and surfaces no
error, whatever the gateway does — in particular even when Node teardown
fails: the force mode of delete swallows per-resource teardown failures and
removes the record unconditionally. -/
theorem delete_force_removes_error_sandbox
    (ts : TemplateStore) (gw : Gateway) (st : Store) (name : String) (r : SbRecord)
    (hc : Sandbox.construct ts st name = .ok (some r)) (_hs : r.status = .error) :
    StateStore.memRec (SandboxDelete.take_action ts gw st ⟨name, true, ""⟩).store name = false ∧
    (SandboxDelete.take_action ts gw st ⟨name, true, ""⟩).err = none := by
  obtain ⟨e, h1, h2, t, h3⟩ := construct_ok_some_inv hc
  have hm : StateStore.memRec st name = true := by
    simp [StateStore.memRec, h1]
  simp only [SandboxDelete.take_action, hc, hm]
  simp only [Sandbox.delete, h1, h2]
  simp [StateStore.memRec_remove_self]

/-- Witness for C1: the spec scenario sandbox sb1 (status error) with a gateway
whose node-1 teardown fails; delete --force ends with no record and no error. -/
theorem delete_force_removes_error_sandbox_witness :
    StateStore.memRec
      (SandboxDelete.take_action ts1 gwNodeTeardownFail stErr ⟨"sb1", true, ""⟩).store "sb1" = false ∧
    (SandboxDelete.take_action ts1 gwNodeTeardownFail stErr ⟨"sb1", true, ""⟩).err = none :=
  delete_force_removes_error_sandbox ts1 gwNodeTeardownFail stErr "sb1" recErr rfl rfl

/-- C2: force_delete is exactly the direct State Store removal — no resource
teardown, nothing fallible — and always leaves the named record absent; in the
delete command it is invoked precisely on the path where construction of the
Sandbox object raises with force requested; and for a malformed / partially
written record, the delete command with force=true leaves the named record
absent. -/
theorem force_delete_contract (ts : TemplateStore) (gw : Gateway) (st : Store) (args : ParsedArgs) :
    (∀ n, Sandbox.force_delete st n = StateStore.remove st n ∧
      StateStore.memRec (Sandbox.force_delete st n) n = false) ∧
    (Event.opForceDelete args.name ∈ (SandboxDelete.take_action ts gw st args).events ↔
      ((∃ e, Sandbox.construct ts st args.name = .error e) ∧ args.force = true)) ∧
    (∀ en, StateStore.lookupEntry st args.name = some en → en.data = none →
      args.force = true →
      StateStore.memRec (SandboxDelete.take_action ts gw st args).store args.name = false) := by
  refine ⟨fun n => ⟨rfl, StateStore.memRec_remove_self st n⟩, ?_, ?_⟩
  · cases hc : Sandbox.construct ts st args.name with
    | error e =>
      cases hf : args.force
      · simp [SandboxDelete.take_action, hc, hf]
      · simp [SandboxDelete.take_action, hc, hf]
    | ok o =>
      by_cases hm : StateStore.memRec st args.name
      · simp [SandboxDelete.take_action, hc, hm]
      · simp [SandboxDelete.take_action, hc, hm]
  · intro en h1 h2 hf
    have hc : Sandbox.construct ts st args.name = .error (.corruptRecord args.name) := by
      simp [Sandbox.construct, h1, h2]
    simp [SandboxDelete.take_action, hc, hf, Sandbox.force_delete,
      StateStore.memRec_remove_self]

/-- Witness for C2: a malformed record for sb1; delete --force leaves sb1
absent. -/
theorem force_delete_contract_witness :
    StateStore.memRec
      (SandboxDelete.take_action ts1 gwAllOk stCorrupt ⟨"sb1", true, ""⟩).store "sb1" = false :=
  (force_delete_contract ts1 gwAllOk stCorrupt ⟨"sb1", true, ""⟩).2.2 ⟨"sb1", none⟩ rfl rfl rfl

/-- C3: delete, start and stop on a name with no persisted record each fail
with the sandbox-does-not-exist RuntimeError, invoke no orchestrator
operation, and leave the State Store contents exactly unchanged. -/
theorem absent_sandbox_ops_fail_no_write
    (ts : TemplateStore) (gw : Gateway) (st : Store) (name : String) (force : Bool) (tpl : String)
    (h : StateStore.memRec st name = false) :
    SandboxDelete.take_action ts gw st ⟨name, force, tpl⟩ =
      ⟨st, [], some (.runtimeError (notFoundMsg name)), []⟩ ∧
    SandboxStart.take_action ts gw st ⟨name, force, tpl⟩ =
      ⟨st, [], some (.runtimeError (notFoundMsg name)), []⟩ ∧
    SandboxStop.take_action ts gw st ⟨name, force, tpl⟩ =
      ⟨st, [], some (.runtimeError (notFoundMsg name)), []⟩ := by
  have hl := StateStore.lookupEntry_of_memRec_false st name h
  have hc : Sandbox.construct ts st name = .ok none := construct_of_lookup_none hl
  refine ⟨?_, ?_, ?_⟩ <;>
    simp [SandboxDelete.take_action, SandboxStart.take_action, SandboxStop.take_action, hc, h]

/-- Witness for C3: the empty store, sandbox name sb1. -/
theorem absent_sandbox_ops_fail_no_write_witness :
    SandboxDelete.take_action ts1 gwAllOk [] ⟨"sb1", false, ""⟩ =
      ⟨[], [], some (.runtimeError (notFoundMsg "sb1")), []⟩ ∧
    SandboxStart.take_action ts1 gwAllOk [] ⟨"sb1", false, ""⟩ =
      ⟨[], [], some (.runtimeError (notFoundMsg "sb1")), []⟩ ∧
    SandboxStop.take_action ts1 gwAllOk [] ⟨"sb1", false, ""⟩ =
      ⟨[], [], some (.runtimeError (notFoundMsg "sb1")), []⟩ :=
  absent_sandbox_ops_fail_no_write ts1 gwAllOk [] "sb1" false "" rfl

/-- C7: when constructing the Sandbox object during a delete invocation raises
and force was not requested, the command aborts immediately — no orchestrator
operation runs, the store is untouched — and the very same error is surfaced
to the caller. -/
theorem delete_construction_error_surfaced_verbatim
    (ts : TemplateStore) (gw : Gateway) (st : Store) (args : ParsedArgs) (e : OsError)
    (hc : Sandbox.construct ts st args.name = .error e) (hf : args.force = false) :
    SandboxDelete.take_action ts gw st args = ⟨st, [], some e, []⟩ := by
  simp [SandboxDelete.take_action, hc, hf]

/-- Witness for C7: a malformed record for sb1 without --force; the
corrupt-record error comes back verbatim and the record stays. -/
theorem delete_construction_error_surfaced_verbatim_witness :
    SandboxDelete.take_action ts1 gwAllOk stCorrupt ⟨"sb1", false, ""⟩ =
      ⟨stCorrupt, [], some (.corruptRecord "sb1"), []⟩ :=
  delete_construction_error_surfaced_verbatim ts1 gwAllOk stCorrupt ⟨"sb1", false, ""⟩
    (.corruptRecord "sb1") rfl rfl

/-- C10: whenever constructing the Sandbox object in the delete command raises
and force=true was given, the command removes the record via force_delete and
then falls through to evaluating sb.exists() with the local sb never bound, so
it always ends in UnboundLocalError — the force-fallback path never completes
successfully, though the record is already gone. -/
theorem delete_force_fallback_unbound_local
    (ts : TemplateStore) (gw : Gateway) (st : Store) (args : ParsedArgs) (e : OsError)
    (hc : Sandbox.construct ts st args.name = .error e) (hf : args.force = true) :
    SandboxDelete.take_action ts gw st args =
      ⟨Sandbox.force_delete st args.name, [.opForceDelete args.name],
        some (.unboundLocalError "sb"), []⟩ ∧
    StateStore.memRec (SandboxDelete.take_action ts gw st args).store args.name = false := by
  have h : SandboxDelete.take_action ts gw st args =
      ⟨Sandbox.force_delete st args.name, [.opForceDelete args.name],
        some (.unboundLocalError "sb"), []⟩ := by
    simp [SandboxDelete.take_action, hc, hf]
  exact ⟨h, by rw [h]; exact StateStore.memRec_remove_self st args.name⟩

/-- Witness for C10: a malformed record for sb1 with --force; the command ends
in UnboundLocalError with the record removed. -/
theorem delete_force_fallback_unbound_local_witness :
    SandboxDelete.take_action ts1 gwAllOk stCorrupt ⟨"sb1", true, ""⟩ =
      ⟨Sandbox.force_delete stCorrupt "sb1", [.opForceDelete "sb1"],
        some (.unboundLocalError "sb"), []⟩ ∧
    StateStore.memRec (SandboxDelete.take_action ts1 gwAllOk stCorrupt ⟨"sb1", true, ""⟩).store "sb1" = false :=
  delete_force_fallback_unbound_local ts1 gwAllOk stCorrupt ⟨"sb1", true, ""⟩
    (.corruptRecord "sb1") rfl rfl


/- ## Helper lemmas for create -/

lemma loadRec_save_self (st : Store) (r : SbRecord) :
    StateStore.loadRec (StateStore.save st r) r.name = some r := by
  simp [StateStore.loadRec, StateStore.lookupEntry_save_self]

lemma loadRec_save_mk (st : Store) (n : String) (s : SbStatus) (t : String)
    (nets : List Network) (nodes : List Node) :
    StateStore.loadRec (StateStore.save st (SbRecord.mk n s t nets nodes)) n =
      some (SbRecord.mk n s t nets nodes) :=
  loadRec_save_self st (SbRecord.mk n s t nets nodes)

lemma memRec_save_mk (st : Store) (n : String) (s : SbStatus) (t : String)
    (nets : List Network) (nodes : List Node) :
    StateStore.memRec (StateStore.save st (SbRecord.mk n s t nets nodes)) n = true :=
  StateStore.memRec_save_self st (SbRecord.mk n s t nets nodes)

lemma resolve_error_shape (ts : TemplateStore) (tplName : String) (e : OsError)
    (h : resolve ts tplName = .error e) :
    e = .templateNotFound tplName ∨ e = .templateInvalid tplName := by
  unfold resolve at h
  split at h
  · simp only [Except.error.injEq] at h
    exact Or.inl h.symm
  · split at h
    · exact absurd h (by simp)
    · simp only [Except.error.injEq] at h
      exact Or.inr h.symm

lemma create_ok_mem (ts : TemplateStore) (gw : Gateway) (st : Store)
    (name tplName : String) (tpl : Template)
    (hm : StateStore.memRec st name = false) (hr : resolve ts tplName = .ok tpl) :
    (Sandbox.create ts gw st name tplName).err = none ∧
    StateStore.memRec (Sandbox.create ts gw st name tplName).store name = true := by
  unfold Sandbox.create
  simp only [hm, Bool.false_eq_true, if_false, hr]
  split
  · exact ⟨rfl, memRec_save_mk _ _ _ _ _ _⟩
  · exact ⟨rfl, memRec_save_mk _ _ _ _ _ _⟩

/-- C4: the Orchestrator create(name, template) fails with AlreadyExists iff a
persisted record for that name already exists, whatever the status of that record
(the store is then untouched); when no record exists create proceeds — with a
resolvable template it persists a record for the name. -/
theorem create_already_exists_iff
    (ts : TemplateStore) (gw : Gateway) (st : Store) (name tplName : String) :
    ((Sandbox.create ts gw st name tplName).err = some (.alreadyExists name) ↔
      StateStore.memRec st name = true) ∧
    (StateStore.memRec st name = true → Sandbox.create ts gw st name tplName =
      ⟨st, some (.alreadyExists name)⟩) ∧
    (StateStore.memRec st name = false → ∀ tpl, resolve ts tplName = .ok tpl →
      StateStore.memRec (Sandbox.create ts gw st name tplName).store name = true) := by
  by_cases hm : StateStore.memRec st name
  · refine ⟨?_, fun _ => ?_, fun hmf => absurd hm (by simp [hmf])⟩
    · simp [Sandbox.create, hm]
    · simp [Sandbox.create, hm]
  · have hm2 : StateStore.memRec st name = false := by simpa using hm
    refine ⟨⟨?_, fun hmt => absurd hmt (by simp [hm2])⟩,
      fun hmt => absurd hmt (by simp [hm2]),
      fun _ tpl hr => (create_ok_mem ts gw st name tplName tpl hm2 hr).2⟩
    intro he
    exfalso
    cases hr : resolve ts tplName with
    | error e =>
      have herr : (Sandbox.create ts gw st name tplName).err = some e := by
        unfold Sandbox.create
        simp only [hm2, Bool.false_eq_true, if_false, hr]
      rw [herr] at he
      simp only [Option.some.injEq] at he
      rcases resolve_error_shape ts tplName e hr with h | h <;> simp [h] at he
    | ok tpl =>
      have herr := (create_ok_mem ts gw st name tplName tpl hm2 hr).1
      rw [herr] at he
      exact Option.noConfusion he

/-- Witness for C4: an occupied store makes create fail with AlreadyExists; the
empty store lets it proceed and persist sb1. -/
theorem create_already_exists_iff_witness :
    ((Sandbox.create ts1 gwAllOk stErr "sb1" "T1").err = some (.alreadyExists "sb1") ↔
      StateStore.memRec stErr "sb1" = true) ∧
    StateStore.memRec (Sandbox.create ts1 gwAllOk [] "sb1" "T1").store "sb1" = true :=
  ⟨(create_already_exists_iff ts1 gwAllOk stErr "sb1" "T1").1,
    (create_already_exists_iff ts1 gwAllOk [] "sb1" "T1").2.2 rfl tplT1 rfl⟩

/-- C5: if during create the provisioning of one network fails after all the
networks before it succeeded, then no Node is ever provisioned (every Node is
persisted still pending) and the persisted record has status error with
exactly the preceding networks active, the failing one error, and the
remaining ones pending.  The failure is persisted, not fatal (no error is
surfaced). -/
theorem create_network_failure_persists_state
    (ts : TemplateStore) (gw : Gateway) (st : Store) (name tplName : String) (tpl : Template)
    (pre : List NetDef) (x : NetDef) (suf : List NetDef)
    (hm : StateStore.memRec st name = false)
    (hr : resolve ts tplName = .ok tpl)
    (hnets : tpl.networks = pre ++ x :: suf)
    (hpre : ∀ d ∈ pre, gw.provisionNetworkOk d.name = true)
    (hx : gw.provisionNetworkOk x.name = false) :
    (Sandbox.create ts gw st name tplName).err = none ∧
    StateStore.loadRec (Sandbox.create ts gw st name tplName).store name =
      some (SbRecord.mk name .error tplName
        (pre.map (fun d => Network.mk d.name d.cidr .active) ++
          (Network.mk x.name x.cidr .error :: suf.map (fun d => Network.mk d.name d.cidr .pending)))
        (tpl.nodes.map (fun d => Node.mk d.name d.services .pending d.networks))) := by
  have hp : ∀ n ∈ pre.map (fun d => Network.mk d.name d.cidr RStatus.pending),
      gw.provisionNetworkOk n.name = true := by
    intro n hn
    obtain ⟨d, hd, rfl⟩ := List.mem_map.mp hn
    exact hpre d hd
  have hprov : provisionNets gw (tpl.networks.map (fun d => Network.mk d.name d.cidr .pending)) =
      pre.map (fun d => Network.mk d.name d.cidr .active) ++
        (Network.mk x.name x.cidr .error :: suf.map (fun d => Network.mk d.name d.cidr .pending)) := by
    rw [hnets, List.map_append, List.map_cons]
    rw [provisionNets_break gw _ _ _ hp hx]
    rw [List.map_map]
    rfl
  have hall : (pre.map (fun d => Network.mk d.name d.cidr RStatus.active) ++
      (Network.mk x.name x.cidr RStatus.error ::
        suf.map (fun d => Network.mk d.name d.cidr RStatus.pending))).all
        (fun n => n.status == RStatus.active) = false := by
    have hfalse : (RStatus.error == RStatus.active) = false := rfl
    simp [List.all_append, hfalse]
  unfold Sandbox.create
  simp only [hm, Bool.false_eq_true, if_false, hr, hprov, hall]
  exact ⟨by trivial, loadRec_save_mk _ _ _ _ _ _⟩

/-- Witness for C5: template T2 whose second network net-b fails to provision;
the persisted record is error with net-a active, net-b error, node-1 pending. -/
theorem create_network_failure_persists_state_witness :
    (Sandbox.create ts1 gwNetBFail [] "sb1" "T2").err = none ∧
    StateStore.loadRec (Sandbox.create ts1 gwNetBFail [] "sb1" "T2").store "sb1" =
      some (SbRecord.mk "sb1" .error "T2"
        (([⟨"net-a", "10.0.0.0/24"⟩] : List NetDef).map (fun d => Network.mk d.name d.cidr .active) ++
          (Network.mk "net-b" "10.0.1.0/24" .error ::
            ([] : List NetDef).map (fun d => Network.mk d.name d.cidr .pending)))
        (tplT2.nodes.map (fun d => Node.mk d.name d.services .pending d.networks))) :=
  create_network_failure_persists_state ts1 gwNetBFail [] "sb1" "T2" tplT2
    [⟨"net-a", "10.0.0.0/24"⟩] ⟨"net-b", "10.0.1.0/24"⟩ []
    rfl rfl rfl (by decide) rfl


/- ## Fault-free gateway and lifecycle step lemmas -/

/-- A Provisioning Gateway that never fails: every boundary call succeeds on
every resource. -/
def Gateway.faultFree (gw : Gateway) : Prop :=
  (∀ s, gw.provisionNetworkOk s = true) ∧ (∀ s, gw.teardownNetworkOk s = true) ∧
  (∀ s, gw.provisionNodeOk s = true) ∧ (∀ s, gw.teardownNodeOk s = true) ∧
  (∀ s, gw.startNodeOk s = true) ∧ (∀ s, gw.stopNodeOk s = true)

lemma create_faultFree (ts : TemplateStore) (gw : Gateway) (st : Store)
    (name tplName : String) (tpl : Template)
    (hgw : gw.faultFree) (hm : StateStore.memRec st name = false)
    (hr : resolve ts tplName = .ok tpl) :
    Sandbox.create ts gw st name tplName =
      ⟨StateStore.save (StateStore.save st (SbRecord.mk name .creating tplName
          (tpl.networks.map (fun d => Network.mk d.name d.cidr .pending))
          (tpl.nodes.map (fun d => Node.mk d.name d.services .pending d.networks))))
        (SbRecord.mk name .active tplName
          (tpl.networks.map (fun d => Network.mk d.name d.cidr .active))
          (tpl.nodes.map (fun d => Node.mk d.name d.services .active d.networks))),
        none⟩ := by
  obtain ⟨hgnet, _, hgnode, _, _, _⟩ := hgw
  have hprov : provisionNets gw (tpl.networks.map (fun d => Network.mk d.name d.cidr .pending)) =
      tpl.networks.map (fun d => Network.mk d.name d.cidr .active) := by
    rw [provisionNets_all_ok gw _ (fun n _ => hgnet n.name), List.map_map]
    rfl
  have hprovNode : provisionNodes gw
        (tpl.nodes.map (fun d => Node.mk d.name d.services .pending d.networks)) =
      tpl.nodes.map (fun d => Node.mk d.name d.services .active d.networks) := by
    rw [provisionNodes_all_ok gw _ (fun n _ => hgnode n.name), List.map_map]
    rfl
  have hallNet : (tpl.networks.map (fun d => Network.mk d.name d.cidr RStatus.active)).all
      (fun n => n.status == RStatus.active) = true := by
    simp [List.all_eq_true]
  have hallNode : (tpl.nodes.map (fun d => Node.mk d.name d.services RStatus.active d.networks)).all
      (fun n => n.status == RStatus.active) = true := by
    simp [List.all_eq_true]
  unfold Sandbox.create
  simp only [hm, Bool.false_eq_true, if_false, hr, hprov, hprovNode, hallNet, hallNode, if_true]

lemma createCmd_faultFree (ts : TemplateStore) (gw : Gateway) (st : Store)
    (name tplName : String) (tpl : Template) (f : Bool)
    (hgw : gw.faultFree) (hm : StateStore.memRec st name = false)
    (hr : resolve ts tplName = .ok tpl) :
    SandboxCreate.take_action ts gw st ⟨name, f, tplName⟩ =
      ⟨StateStore.save (StateStore.save st (SbRecord.mk name .creating tplName
          (tpl.networks.map (fun d => Network.mk d.name d.cidr .pending))
          (tpl.nodes.map (fun d => Node.mk d.name d.services .pending d.networks))))
        (SbRecord.mk name .active tplName
          (tpl.networks.map (fun d => Network.mk d.name d.cidr .active))
          (tpl.nodes.map (fun d => Node.mk d.name d.services .active d.networks))),
        [.opCreate name], none, []⟩ := by
  have hc : Sandbox.construct ts st name = .ok none :=
    construct_of_lookup_none (StateStore.lookupEntry_of_memRec_false st name hm)
  simp [SandboxCreate.take_action, hc,
    create_faultFree ts gw st name tplName tpl hgw hm hr]

lemma startCmd_on_active (ts : TemplateStore) (gw : Gateway) (st : Store)
    (name : String) (f : Bool) (tname : String) {e : Entry} {r : SbRecord} {t : Template}
    (hl : StateStore.lookupEntry st name = some e) (hd : e.data = some r)
    (ht : resolve ts r.tpl = .ok t) (hs : r.status = .active) :
    SandboxStart.take_action ts gw st ⟨name, f, tname⟩ = ⟨st, [.opStart name], none, []⟩ := by
  have hc : Sandbox.construct ts st name = .ok (some r) := by
    simp [Sandbox.construct, hl, hd, ht]
  have hm : StateStore.memRec st name = true := by simp [StateStore.memRec, hl]
  simp [SandboxStart.take_action, hc, hm, Sandbox.start, hl, hd, hs]

lemma stopCmd_eval (ts : TemplateStore) (gw : Gateway) (st : Store)
    (name : String) (f : Bool) (tname : String) {e : Entry} {r : SbRecord} {t : Template}
    (hl : StateStore.lookupEntry st name = some e) (hd : e.data = some r)
    (ht : resolve ts r.tpl = .ok t) (hstop : ∀ s, gw.stopNodeOk s = true) :
    SandboxStop.take_action ts gw st ⟨name, f, tname⟩ =
      ⟨StateStore.save st
          { r with
            status := .stopped
            nodes := r.nodes.map (fun n => { n with status := RStatus.stopped }) },
        [.opStop name], none, []⟩ := by
  have hc : Sandbox.construct ts st name = .ok (some r) := by
    simp [Sandbox.construct, hl, hd, ht]
  have hm : StateStore.memRec st name = true := by simp [StateStore.memRec, hl]
  simp [SandboxStop.take_action, hc, hm, Sandbox.stop, hl, hd,
    stopNodes_all_ok gw r.nodes (fun n _ => hstop n.name)]

lemma deleteCmd_nonforce_faultFree (ts : TemplateStore) (gw : Gateway) (st : Store)
    (name : String) (tname : String) {e : Entry} {r : SbRecord} {t : Template}
    (hl : StateStore.lookupEntry st name = some e) (hd : e.data = some r)
    (ht : resolve ts r.tpl = .ok t)
    (htN : ∀ s, gw.teardownNodeOk s = true) (htW : ∀ s, gw.teardownNetworkOk s = true) :
    SandboxDelete.take_action ts gw st ⟨name, false, tname⟩ =
      ⟨StateStore.remove st name, [.opDelete name], none, []⟩ := by
  have hc : Sandbox.construct ts st name = .ok (some r) := by
    simp [Sandbox.construct, hl, hd, ht]
  have hm : StateStore.memRec st name = true := by simp [StateStore.memRec, hl]
  simp [SandboxDelete.take_action, hc, hm, Sandbox.delete, hl, hd,
    teardownNodesStrict_all_ok gw r.nodes.reverse (fun n _ => htN n.name),
    teardownNetsStrict_all_ok gw r.networks.reverse (fun n _ => htW n.name)]

/-- C6: for a valid template and a fresh name, create, then start, then stop,
then delete(force=false), run against a Provisioning Gateway that never fails,
all succeed, and the sequence ends with no State Store record of that name. -/
theorem lifecycle_round_trip
    (ts : TemplateStore) (gw : Gateway) (st : Store) (name tplName : String) (tpl : Template)
    (hgw : gw.faultFree) (hm : StateStore.memRec st name = false)
    (hr : resolve ts tplName = .ok tpl) :
    (SandboxCreate.take_action ts gw st ⟨name, false, tplName⟩).err = none ∧
    (SandboxStart.take_action ts gw
      (SandboxCreate.take_action ts gw st ⟨name, false, tplName⟩).store
      ⟨name, false, tplName⟩).err = none ∧
    (SandboxStop.take_action ts gw
      (SandboxStart.take_action ts gw
        (SandboxCreate.take_action ts gw st ⟨name, false, tplName⟩).store
        ⟨name, false, tplName⟩).store
      ⟨name, false, tplName⟩).err = none ∧
    (SandboxDelete.take_action ts gw
      (SandboxStop.take_action ts gw
        (SandboxStart.take_action ts gw
          (SandboxCreate.take_action ts gw st ⟨name, false, tplName⟩).store
          ⟨name, false, tplName⟩).store
        ⟨name, false, tplName⟩).store
      ⟨name, false, tplName⟩).err = none ∧
    StateStore.memRec
      (SandboxDelete.take_action ts gw
        (SandboxStop.take_action ts gw
          (SandboxStart.take_action ts gw
            (SandboxCreate.take_action ts gw st ⟨name, false, tplName⟩).store
            ⟨name, false, tplName⟩).store
          ⟨name, false, tplName⟩).store
        ⟨name, false, tplName⟩).store name = false := by
  rw [createCmd_faultFree ts gw st name tplName tpl false hgw hm hr]
  dsimp only
  rw [startCmd_on_active ts gw _ name false tplName
    (StateStore.lookupEntry_save_self _ _) rfl hr rfl]
  dsimp only
  rw [stopCmd_eval ts gw _ name false tplName
    (StateStore.lookupEntry_save_self _ _) rfl hr hgw.2.2.2.2.2]
  dsimp only
  rw [deleteCmd_nonforce_faultFree ts gw _ name tplName
    (StateStore.lookupEntry_save_self _ _) rfl hr hgw.2.2.2.1 hgw.2.1]
  dsimp only
  exact ⟨rfl, rfl, rfl, rfl, StateStore.memRec_remove_self _ name⟩

/-- Witness for C6: the full round trip for sb1 from template T1 on the empty
store with the all-succeeding gateway. -/
theorem lifecycle_round_trip_witness :
    (SandboxCreate.take_action ts1 gwAllOk [] ⟨"sb1", false, "T1"⟩).err = none ∧
    (SandboxStart.take_action ts1 gwAllOk
      (SandboxCreate.take_action ts1 gwAllOk [] ⟨"sb1", false, "T1"⟩).store
      ⟨"sb1", false, "T1"⟩).err = none ∧
    (SandboxStop.take_action ts1 gwAllOk
      (SandboxStart.take_action ts1 gwAllOk
        (SandboxCreate.take_action ts1 gwAllOk [] ⟨"sb1", false, "T1"⟩).store
        ⟨"sb1", false, "T1"⟩).store
      ⟨"sb1", false, "T1"⟩).err = none ∧
    (SandboxDelete.take_action ts1 gwAllOk
      (SandboxStop.take_action ts1 gwAllOk
        (SandboxStart.take_action ts1 gwAllOk
          (SandboxCreate.take_action ts1 gwAllOk [] ⟨"sb1", false, "T1"⟩).store
          ⟨"sb1", false, "T1"⟩).store
        ⟨"sb1", false, "T1"⟩).store
      ⟨"sb1", false, "T1"⟩).err = none ∧
    StateStore.memRec
      (SandboxDelete.take_action ts1 gwAllOk
        (SandboxStop.take_action ts1 gwAllOk
          (SandboxStart.take_action ts1 gwAllOk
            (SandboxCreate.take_action ts1 gwAllOk [] ⟨"sb1", false, "T1"⟩).store
            ⟨"sb1", false, "T1"⟩).store
          ⟨"sb1", false, "T1"⟩).store
        ⟨"sb1", false, "T1"⟩).store "sb1" = false :=
  lifecycle_round_trip ts1 gwAllOk [] "sb1" "T1" tplT1
    ⟨fun _ => rfl, fun _ => rfl, fun _ => rfl, fun _ => rfl, fun _ => rfl, fun _ => rfl⟩
    rfl rfl


/- ## Command-to-operation mapping (C8) -/

/-- What the 1:1 command-to-operation contract requires of the result of one
invocation: on success the command has invoked exactly its own section-4 operation
once, it never invokes more than one operation, and the process exit status is
zero exactly when no failure escaped. -/
def invokesOnce (res : CmdResult) (ev : Event) : Prop :=
  (res.err = none → res.events = [ev]) ∧ res.events.length ≤ 1 ∧
  (exitCode res = 0 ↔ res.err = none)

/-- C8: every command maps 1:1 onto its section-4 orchestrator / registry
operation — on success it invokes exactly that operation exactly once, it
never invokes more than one, and every escaping failure yields a non-zero
process exit status (no command discards a failure into a zero exit). -/
theorem commands_map_one_to_one
    (ts : TemplateStore) (gw : Gateway) (st : Store) (args : ParsedArgs) :
    invokesOnce (SandboxList.take_action ts st) .opList ∧
    invokesOnce (SandboxShow.take_action ts st args) (.opShow args.name) ∧
    invokesOnce (SandboxCreate.take_action ts gw st args) (.opCreate args.name) ∧
    ((SandboxDelete.take_action ts gw st args).err = none →
      (SandboxDelete.take_action ts gw st args).events = [.opDelete args.name]) ∧
    (SandboxDelete.take_action ts gw st args).events.length ≤ 1 ∧
    (exitCode (SandboxDelete.take_action ts gw st args) = 0 ↔
      (SandboxDelete.take_action ts gw st args).err = none) ∧
    invokesOnce (SandboxStart.take_action ts gw st args) (.opStart args.name) ∧
    invokesOnce (SandboxStop.take_action ts gw st args) (.opStop args.name) := by
  refine ⟨?_, ?_, ?_, ?_, ?_, ?_, ?_, ?_⟩
  · cases h : enumerate ts st <;> simp [invokesOnce, SandboxList.take_action, h, exitCode]
  · cases h : Sandbox.construct ts st args.name with
    | error e => simp [invokesOnce, SandboxShow.take_action, h, exitCode]
    | ok o =>
      by_cases hm : StateStore.memRec st args.name <;>
        simp [invokesOnce, SandboxShow.take_action, h, hm, exitCode]
  · cases h : Sandbox.construct ts st args.name with
    | error e => simp [invokesOnce, SandboxCreate.take_action, h, exitCode]
    | ok o =>
      cases he : (Sandbox.create ts gw st args.name args.template).err <;>
        simp [invokesOnce, SandboxCreate.take_action, h, he, exitCode]
  · cases h : Sandbox.construct ts st args.name with
    | error e =>
      cases hf : args.force <;> simp [SandboxDelete.take_action, h, hf]
    | ok o =>
      by_cases hm : StateStore.memRec st args.name <;>
        simp [SandboxDelete.take_action, h, hm]
  · cases h : Sandbox.construct ts st args.name with
    | error e =>
      cases hf : args.force <;> simp [SandboxDelete.take_action, h, hf]
    | ok o =>
      by_cases hm : StateStore.memRec st args.name <;>
        simp [SandboxDelete.take_action, h, hm]
  · cases h : Sandbox.construct ts st args.name with
    | error e =>
      cases hf : args.force <;> simp [SandboxDelete.take_action, h, hf, exitCode]
    | ok o =>
      by_cases hm : StateStore.memRec st args.name
      · cases he : (Sandbox.delete gw st args.name args.force).err <;>
          simp [SandboxDelete.take_action, h, hm, he, exitCode]
      · simp [SandboxDelete.take_action, h, hm, exitCode]
  · cases h : Sandbox.construct ts st args.name with
    | error e => simp [invokesOnce, SandboxStart.take_action, h, exitCode]
    | ok o =>
      by_cases hm : StateStore.memRec st args.name
      · cases he : (Sandbox.start gw st args.name).err <;>
          simp [invokesOnce, SandboxStart.take_action, h, hm, he, exitCode]
      · simp [invokesOnce, SandboxStart.take_action, h, hm, exitCode]
  · cases h : Sandbox.construct ts st args.name with
    | error e => simp [invokesOnce, SandboxStop.take_action, h, exitCode]
    | ok o =>
      by_cases hm : StateStore.memRec st args.name
      · cases he : (Sandbox.stop gw st args.name).err <;>
          simp [invokesOnce, SandboxStop.take_action, h, hm, he, exitCode]
      · simp [invokesOnce, SandboxStop.take_action, h, hm, exitCode]

/-- Witness for C8: a successful delete invocation records exactly one opDelete
invocation. -/
theorem commands_map_one_to_one_witness :
    (SandboxDelete.take_action ts1 gwAllOk stErr ⟨"sb1", false, ""⟩).events =
      [.opDelete "sb1"] :=
  (commands_map_one_to_one ts1 gwAllOk stErr ⟨"sb1", false, ""⟩).2.2.2.1 rfl

/- ## The list command (C9) -/

/-- C9: the list command succeeds on a readable store and returns one row per
known sandbox — (full name, status string, template name) — the sequence being
sorted by sandbox name: the rows are exactly the name-sorted records rendered,
their first components are pairwise ordered, and they are a permutation of one
row per persisted record. -/
theorem list_rows_sorted_by_name (ts : TemplateStore) (st : Store) (recs : List SbRecord)
    (h : readAll ts st = .ok recs) :
    (SandboxList.take_action ts st).err = none ∧
    (SandboxList.take_action ts st).rows =
      (sortByName recs).map (fun r => (r.name, r.status.str, r.tpl)) ∧
    (SandboxList.take_action ts st).rows.Pairwise (fun a b => a.1 ≤ b.1) ∧
    (SandboxList.take_action ts st).rows.Perm
      (recs.map (fun r => (r.name, r.status.str, r.tpl))) := by
  have he : enumerate ts st = .ok (sortByName recs) := by simp [enumerate, h]
  have hrows : SandboxList.take_action ts st =
      ⟨st, [.opList], none, (sortByName recs).map (fun r => (r.name, r.status.str, r.tpl))⟩ := by
    simp [SandboxList.take_action, he]
  refine ⟨by rw [hrows], by rw [hrows], ?_, ?_⟩
  · rw [hrows]
    dsimp only
    rw [List.pairwise_map]
    exact sortByName_sorted recs
  · rw [hrows]
    exact (sortByName_perm recs).map _

/-- Two further records for the list witness, stored out of name order. -/
def recB : SbRecord := ⟨"sbB", .active, "T1", [], []⟩

def recA2 : SbRecord := ⟨"sbA", .stopped, "T1", [], []⟩

/-- A store holding sbB then sbA, deliberately out of name order. -/
def stTwo : Store := [⟨"sbB", some recB⟩, ⟨"sbA", some recA2⟩]

/-- Witness for C9: listing a two-sandbox store stored out of order. -/
theorem list_rows_sorted_by_name_witness :
    (SandboxList.take_action ts1 stTwo).err = none ∧
    (SandboxList.take_action ts1 stTwo).rows =
      (sortByName [recB, recA2]).map (fun r => (r.name, r.status.str, r.tpl)) ∧
    (SandboxList.take_action ts1 stTwo).rows.Pairwise (fun a b => a.1 ≤ b.1) ∧
    (SandboxList.take_action ts1 stTwo).rows.Perm
      ([recB, recA2].map (fun r => (r.name, r.status.str, r.tpl))) :=
  list_rows_sorted_by_name ts1 stTwo [recB, recA2] rfl

end OsSandbox
